import Mathlib

/-!
Verification of the RAGonQuest client against its specification.

The definitions below are a shallow embedding of the frontend sources
(src/frontend/src and the unnamed source parts).  Pure data shapes come from
src/frontend/src/types.ts; event handlers are embedded as explicit
state-transition functions whose extra argument is the response the external
server gives to the single HTTP request the handler may issue.  The backend
core (cost estimator, conversation orchestrator) is not part of the source
tree; where a claim depends on it the corresponding definition is modelled
from the spec and marked as such in its doc comment.
-/

namespace RAGonQuest

/-- CorpusFile record, from src/frontend/src/types.ts lines 1-8. -/
structure CorpusFile where
  id : String
  corpus_id : String
  filename : String
  is_ingested : Bool
  created_at : String
  updated_at : String
deriving Repr, DecidableEq

/-- Corpus record at the public client interface, from
src/frontend/src/types.ts lines 10-22.  Note: there is no
similarity_threshold field in this interface. -/
structure Corpus where
  id : String
  name : String
  description : Option String
  default_prompt : String
  qdrant_collection_name : String
  path : String
  embedding_model : String
  completion_model : String
  created_at : String
  updated_at : String
  files : List CorpusFile
deriving Repr, DecidableEq

/-- The field names declared on the Corpus interface in
src/frontend/src/types.ts lines 10-22, in declaration order. -/
def corpusTypeFields : List String :=
  ["id", "name", "description", "default_prompt", "qdrant_collection_name",
   "path", "embedding_model", "completion_model", "created_at", "updated_at",
   "files"]

/-- ConversationPart record, from src/frontend/src/types.ts lines 24-35. -/
structure ConversationPart where
  id : String
  conversation_id : String
  query : String
  context_chunks : List String
  response : String
  sources : Option (List String)
  embedding_model_used : String
  completion_model_used : String
  chunks_retrieved : Nat
  created_at : String
deriving Repr, DecidableEq

/-- Conversation record, from src/frontend/src/types.ts lines 37-43. -/
structure Conversation where
  id : String
  corpus_id : String
  title : Option String
  created_at : String
  parts : List ConversationPart
deriving Repr, DecidableEq

/-! ## ConversationInput (src/frontend/src/hooks/useToast.ts, second unit,
and src/unnamed/part_001)

The component state consists of the two jotai atoms it reads and writes
(activeCorpusAtom, activeConversationAtom, conversationPartsAtom) and its
local useState cells. -/

/-- Model of JavaScript String.prototype.trim: strip leading and trailing
whitespace. -/
def jsTrim (s : String) : String :=
  ⟨((s.data.dropWhile Char.isWhitespace).reverse.dropWhile
      Char.isWhitespace).reverse⟩

/-- Model of JavaScript s.substring(0, n): the first n characters. -/
def jsTake (s : String) (n : Nat) : String :=
  ⟨s.data.take n⟩

/-- State visible to ConversationInput.handleSubmit. -/
structure ConvInputState where
  activeCorpus : Option Corpus
  activeConversation : Option Conversation
  conversationParts : List ConversationPart
  isContinuing : Bool
  inputValue : String
  error : Option String
deriving Repr, DecidableEq

/-- The HTTP request a submit may issue.  The two conversation-turn entry
points are distinct constructors: POST /corpora/id/conversations with a
query, title and limit, and POST /corpora/id/conversations/cid/continue
with a query and limit. -/
inductive TurnRequest where
  | startConversation (corpusId : String) (query : String) (title : String)
      (limit : Nat)
  | continueConversation (corpusId : String) (conversationId : String)
      (query : String) (limit : Nat)
deriving Repr, DecidableEq

/-- Query text carried by a turn request body. -/
def TurnRequest.sentQuery : TurnRequest → String
  | .startConversation _ q _ _ => q
  | .continueConversation _ _ q _ => q

/-- Result-count limit carried by a turn request body. -/
def TurnRequest.sentLimit : TurnRequest → Nat
  | .startConversation _ _ _ l => l
  | .continueConversation _ _ _ l => l

/-- Title carried by a turn request body (only start requests have one). -/
def TurnRequest.sentTitle : TurnRequest → Option String
  | .startConversation _ _ t _ => some t
  | .continueConversation _ _ _ _ => none

/-- The server's answer to a turn request: a parsed Conversation on an ok
response, a non-ok HTTP response with an optional detail field, or a
thrown network error. -/
inductive TurnResponse where
  | ok (conversation : Conversation)
  | httpError (status : Nat) (detail : Option String)
  | networkError (message : String)
deriving Repr, DecidableEq

/-- A response that makes the fetch path throw: a non-ok response or a
network failure. -/
def TurnResponse.isFailure : TurnResponse → Bool
  | .ok _ => false
  | .httpError _ _ => true
  | .networkError _ => true

/-- ConversationInput.handleSubmit (useToast.ts second unit lines 75-141;
part_001 lines 17-56 is the same handler over an axios-style client).
Guard: empty trimmed input, no corpus, or an in-flight turn returns with no
request.  Otherwise one request is issued: a start request when no
conversation is active, a continue request on the active conversation
otherwise.  On an ok response the returned conversation replaces the active
one and its parts replace the part list and the input is cleared; a non-ok
response or thrown error only records an error message.  The isContinuing
flag is reset in the finally block on both paths. -/
def handleSubmit (s : ConvInputState) (resp : TurnResponse) :
    ConvInputState × Option TurnRequest :=
  match s.activeCorpus with
  | none => (s, none)
  | some corpus =>
    if jsTrim s.inputValue = "" ∨ s.isContinuing = true then
      (s, none)
    else
      let q := jsTrim s.inputValue
      let req : TurnRequest :=
        match s.activeConversation with
        | none => TurnRequest.startConversation corpus.id q (jsTake q 100) 25
        | some conv => TurnRequest.continueConversation corpus.id conv.id q 25
      match resp with
      | TurnResponse.ok conv =>
          ({ s with activeConversation := some conv,
                    conversationParts := conv.parts,
                    inputValue := "",
                    error := none,
                    isContinuing := false }, some req)
      | TurnResponse.httpError status detail =>
          ({ s with
               error := some (detail.getD ("HTTP error! status: " ++ toString status)),
               isContinuing := false }, some req)
      | TurnResponse.networkError msg =>
          ({ s with error := some msg, isContinuing := false }, some req)

/-! ## Concrete sample data used by witness theorems -/

/-- A sample corpus value (shape per types.ts). -/
def sampleCorpus : Corpus :=
  { id := "corpus-1", name := "Docs", description := none,
    default_prompt := "You are a helpful assistant.",
    qdrant_collection_name := "docs", path := "/data/docs",
    embedding_model := "text-embedding-3-small",
    completion_model := "gpt-4o-mini",
    created_at := "2025-01-01T00:00:00Z", updated_at := "2025-01-02T00:00:00Z",
    files := [] }

/-- A sample conversation part. -/
def samplePart : ConversationPart :=
  { id := "part-1", conversation_id := "conv-1", query := "What is RAG?",
    context_chunks := ["chunk one"],
    response := "RAG is retrieval augmented generation.",
    sources := some ["file-1"],
    embedding_model_used := "text-embedding-3-small",
    completion_model_used := "gpt-4o-mini", chunks_retrieved := 1,
    created_at := "2025-01-01T00:10:00Z" }

/-- A sample conversation belonging to sampleCorpus. -/
def sampleConversation : Conversation :=
  { id := "conv-1", corpus_id := "corpus-1", title := some "What is RAG?",
    created_at := "2025-01-01T00:10:00Z", parts := [samplePart] }

/-- A ConversationInput state with a turn already in flight. -/
def inFlightState : ConvInputState :=
  { activeCorpus := some sampleCorpus, activeConversation := none,
    conversationParts := [], isContinuing := true,
    inputValue := "What is RAG?", error := none }

/-- A ConversationInput state ready to submit a continue request. -/
def readyState : ConvInputState :=
  { activeCorpus := some sampleCorpus,
    activeConversation := some sampleConversation,
    conversationParts := [samplePart], isContinuing := false,
    inputValue := "Tell me more", error := none }

/-- A ConversationInput state ready to submit a start request. -/
def freshState : ConvInputState :=
  { activeCorpus := some sampleCorpus, activeConversation := none,
    conversationParts := [], isContinuing := false,
    inputValue := "What is RAG?", error := none }

/-! ## C1, C2, C3, C10: the submit handler -/

/-- C1: while one turn is in flight for the conversation shown in the input
(the isContinuing flag is set), submitting again is a no-op: the handler
returns with the state untouched and no request issued, so a second turn
never begins before the prior one has completed. -/
theorem submit_noop_when_turn_in_flight (s : ConvInputState)
    (resp : TurnResponse) (h : s.isContinuing = true) :
    handleSubmit s resp = (s, none) := by
  cases hc : s.activeCorpus <;> simp [handleSubmit, hc, h]

/-- Witness for submit_noop_when_turn_in_flight at a concrete state. -/
theorem submit_noop_when_turn_in_flight_witness :
    inFlightState.isContinuing = true ∧
    handleSubmit inFlightState (TurnResponse.ok sampleConversation) =
      (inFlightState, none) :=
  ⟨rfl, submit_noop_when_turn_in_flight inFlightState
    (TurnResponse.ok sampleConversation) rfl⟩

/-- C2: a failed turn request (non-ok response or thrown error) changes
neither the active conversation nor its part list; the conversation state is
replaced only on a successful response. -/
theorem turn_failure_leaves_conversation_unchanged (s : ConvInputState)
    (resp : TurnResponse) (h : resp.isFailure = true) :
    (handleSubmit s resp).1.activeConversation = s.activeConversation ∧
    (handleSubmit s resp).1.conversationParts = s.conversationParts := by
  cases resp with
  | ok conv => simp [TurnResponse.isFailure] at h
  | httpError status detail =>
      cases hc : s.activeCorpus with
      | none => simp [handleSubmit, hc]
      | some corpus =>
          by_cases hguard : jsTrim s.inputValue = "" ∨ s.isContinuing = true <;>
            simp [handleSubmit, hc, hguard]
  | networkError msg =>
      cases hc : s.activeCorpus with
      | none => simp [handleSubmit, hc]
      | some corpus =>
          by_cases hguard : jsTrim s.inputValue = "" ∨ s.isContinuing = true <;>
            simp [handleSubmit, hc, hguard]

/-- Witness for turn_failure_leaves_conversation_unchanged: a continue
request over a conversation with one part times out; the part list and the
active conversation are untouched. -/
theorem turn_failure_leaves_conversation_unchanged_witness :
    (TurnResponse.httpError 504 (some "timeout")).isFailure = true ∧
    ((handleSubmit readyState (TurnResponse.httpError 504 (some "timeout"))).1.activeConversation
        = readyState.activeConversation ∧
     (handleSubmit readyState (TurnResponse.httpError 504 (some "timeout"))).1.conversationParts
        = readyState.conversationParts) :=
  ⟨rfl, turn_failure_leaves_conversation_unchanged readyState
    (TurnResponse.httpError 504 (some "timeout")) rfl⟩

/-- C3: a submit with a corpus selected issues the start request when no
conversation is active and the continue request on exactly the active
conversation otherwise; on an ok response the returned conversation becomes
the active one together with its parts.  Start and continue are distinct
request constructors, not one request with an optional conversation. -/
theorem submit_dispatches_start_or_continue (s : ConvInputState)
    (corpus : Corpus) (resp : TurnResponse)
    (hcorp : s.activeCorpus = some corpus)
    (hq : ¬ jsTrim s.inputValue = "") (hflight : s.isContinuing = false) :
    (s.activeConversation = none →
      (handleSubmit s resp).2 =
        some (TurnRequest.startConversation corpus.id (jsTrim s.inputValue)
          (jsTake (jsTrim s.inputValue) 100) 25)) ∧
    (∀ conv, s.activeConversation = some conv →
      (handleSubmit s resp).2 =
        some (TurnRequest.continueConversation corpus.id conv.id
          (jsTrim s.inputValue) 25)) ∧
    (∀ conv, resp = TurnResponse.ok conv →
      (handleSubmit s resp).1.activeConversation = some conv ∧
      (handleSubmit s resp).1.conversationParts = conv.parts) ∧
    (∀ a b c d e f g l, TurnRequest.startConversation a b c d ≠
      TurnRequest.continueConversation e f g l) := by
  have hguard : ¬ (jsTrim s.inputValue = "" ∨ s.isContinuing = true) := by
    simp [hq, hflight]
  refine ⟨?_, ?_, ?_, ?_⟩
  · intro hconv
    cases resp <;> simp [handleSubmit, hcorp, hguard, hconv]
  · intro conv hconv
    cases resp <;> simp [handleSubmit, hcorp, hguard, hconv]
  · intro conv hresp
    subst hresp
    cases ha : s.activeConversation <;>
      simp [handleSubmit, hcorp, hguard, ha]
  · intro a b c d e f g l
    exact fun hcontra => TurnRequest.noConfusion hcontra

/-- Witness for submit_dispatches_start_or_continue at a concrete state with
an active conversation. -/
theorem submit_dispatches_start_or_continue_witness :
    readyState.activeCorpus = some sampleCorpus ∧
    ¬ jsTrim readyState.inputValue = "" ∧
    readyState.isContinuing = false ∧
    ((readyState.activeConversation = none →
      (handleSubmit readyState (TurnResponse.ok sampleConversation)).2 =
        some (TurnRequest.startConversation sampleCorpus.id
          (jsTrim readyState.inputValue)
          (jsTake (jsTrim readyState.inputValue) 100) 25)) ∧
    (∀ conv, readyState.activeConversation = some conv →
      (handleSubmit readyState (TurnResponse.ok sampleConversation)).2 =
        some (TurnRequest.continueConversation sampleCorpus.id conv.id
          (jsTrim readyState.inputValue) 25)) ∧
    (∀ conv, TurnResponse.ok sampleConversation = TurnResponse.ok conv →
      (handleSubmit readyState (TurnResponse.ok sampleConversation)).1.activeConversation = some conv ∧
      (handleSubmit readyState (TurnResponse.ok sampleConversation)).1.conversationParts = conv.parts) ∧
    (∀ a b c d e f g l, TurnRequest.startConversation a b c d ≠
      TurnRequest.continueConversation e f g l)) :=
  ⟨rfl, by decide, rfl,
    submit_dispatches_start_or_continue readyState sampleCorpus
      (TurnResponse.ok sampleConversation) rfl (by decide) rfl⟩

/-- C10: whenever the submit handler issues a request, the query sent is the
trimmed input, the result-count limit is the constant 25, and a start
request's title is the first 100 characters of the trimmed query. -/
theorem submit_request_payload_fields (s : ConvInputState)
    (resp : TurnResponse) (req : TurnRequest)
    (hreq : (handleSubmit s resp).2 = some req) :
    req.sentQuery = jsTrim s.inputValue ∧ req.sentLimit = 25 ∧
    (s.activeConversation = none →
      req.sentTitle = some (jsTake (jsTrim s.inputValue) 100)) := by
  cases hc : s.activeCorpus with
  | none => simp [handleSubmit, hc] at hreq
  | some corpus =>
    by_cases hguard : jsTrim s.inputValue = "" ∨ s.isContinuing = true
    · simp [handleSubmit, hc, hguard] at hreq
    · cases ha : s.activeConversation with
      | none =>
          cases resp <;> simp [handleSubmit, hc, hguard, ha] at hreq <;>
            simp [← hreq, TurnRequest.sentQuery, TurnRequest.sentLimit,
              TurnRequest.sentTitle]
      | some conv =>
          cases resp <;> simp [handleSubmit, hc, hguard, ha] at hreq <;>
            simp [← hreq, TurnRequest.sentQuery, TurnRequest.sentLimit,
              TurnRequest.sentTitle, ha]

/-- Witness for submit_request_payload_fields: the start request issued from
a concrete fresh state carries the trimmed query, title and limit 25. -/
theorem submit_request_payload_fields_witness :
    (handleSubmit freshState (TurnResponse.ok sampleConversation)).2 =
      some (TurnRequest.startConversation "corpus-1" "What is RAG?"
        "What is RAG?" 25) ∧
    ((TurnRequest.startConversation "corpus-1" "What is RAG?"
        "What is RAG?" 25).sentQuery = jsTrim freshState.inputValue ∧
     (TurnRequest.startConversation "corpus-1" "What is RAG?"
        "What is RAG?" 25).sentLimit = 25 ∧
     (freshState.activeConversation = none →
      (TurnRequest.startConversation "corpus-1" "What is RAG?"
        "What is RAG?" 25).sentTitle =
          some (jsTake (jsTrim freshState.inputValue) 100))) :=
  ⟨by decide,
   submit_request_payload_fields freshState (TurnResponse.ok sampleConversation)
     (TurnRequest.startConversation "corpus-1" "What is RAG?"
       "What is RAG?" 25) (by decide)⟩

/-! ## Cost estimation (src/frontend/src/components/EstimateCostDialog.tsx
and src/unnamed/part_008) -/

/-- One file row of a cost-estimate payload, from EstimateCostDialog.tsx
lines 3-9.  Costs are modelled as rationals. -/
structure FileCost where
  corpus_file_id : String
  filename : String
  tokens : Nat
  cost : ℚ
  is_ingested : Bool
deriving Repr, DecidableEq

/-- Cost-estimate response payload, from EstimateCostDialog.tsx
lines 11-21. -/
structure CostEstimateData where
  corpus_id : String
  corpus_name : String
  model : String
  files : List FileCost
  total_tokens : Nat
  total_cost : ℚ
  file_count : Nat
  ingested_count : Nat
  uningested_count : Nat
deriving Repr, DecidableEq

/-- EstimateCostDialog.tsx line 40: the dialog keeps only the rows whose
is_ingested flag is false (and the empty list while no payload is
present). -/
def unIngestedFiles (costData : Option CostEstimateData) : List FileCost :=
  match costData with
  | none => []
  | some d => d.files.filter (fun f => !f.is_ingested)

/-- What the loaded dialog body renders (EstimateCostDialog.tsx lines
58-83): an all-ingested notice when no un-ingested row remains, otherwise
the table of un-ingested rows with costData.total_cost printed under it. -/
inductive CostDialogBody where
  | allIngested
  | table (rows : List FileCost) (totalShown : ℚ)
deriving Repr, DecidableEq

/-- Rendering of EstimateCostDialog once a payload has loaded
(EstimateCostDialog.tsx lines 58-83). -/
def costDialogBody (d : CostEstimateData) : CostDialogBody :=
  if (unIngestedFiles (some d)).isEmpty then CostDialogBody.allIngested
  else CostDialogBody.table (unIngestedFiles (some d)) d.total_cost

/-- Modelled from the spec: an input to the backend Cost Estimator, a file
of the corpus together with the token count produced by the tokenizer for
the corpus's embedding model.  The backend itself (spec section 4.2) is not
part of the source tree. -/
structure EstimatorFile where
  id : String
  filename : String
  tokens : Nat
  is_ingested : Bool
deriving Repr, DecidableEq

/-- Modelled from the spec: the backend cost-estimate operation (spec
section 4.2), which is not part of the source tree.  For every
not-yet-ingested file of the corpus it returns a row carrying the token
count and the projected cost (tokens times price-per-token), and it
returns corpus-level totals: the sum of those tokens, the sum of those
costs, and the counts of all, ingested, and un-ingested files. -/
def costEstimate (corpusId corpusName model : String) (pricePerToken : ℚ)
    (files : List EstimatorFile) : CostEstimateData :=
  let notIngested := files.filter (fun f => !f.is_ingested)
  let rows := notIngested.map (fun f =>
    { corpus_file_id := f.id, filename := f.filename, tokens := f.tokens,
      cost := (f.tokens : ℚ) * pricePerToken, is_ingested := false
      : FileCost })
  { corpus_id := corpusId, corpus_name := corpusName, model := model,
    files := rows,
    total_tokens := (rows.map FileCost.tokens).sum,
    total_cost := (rows.map FileCost.cost).sum,
    file_count := files.length,
    ingested_count := (files.filter (fun f => f.is_ingested)).length,
    uningested_count := notIngested.length }

/-- Every row the estimator emits has its is_ingested flag false. -/
theorem costEstimate_rows_not_ingested (cid cname model : String)
    (price : ℚ) (files : List EstimatorFile) :
    ∀ row ∈ (costEstimate cid cname model price files).files,
      row.is_ingested = false := by
  intro row hrow
  simp only [costEstimate, List.mem_map, List.mem_filter] at hrow
  obtain ⟨f, _, rfl⟩ := hrow
  rfl

/-- C4: the cost estimate carries, for every not-yet-ingested file, a row
with its token count and projected cost, plus corpus-level totals and
counts; each row carries an is_ingested flag, and the dialog consumes an
arbitrary payload by filtering to the rows with is_ingested false, so a
payload enumerating all files is handled. -/
theorem cost_estimate_rows_and_consumer_filter (cid cname model : String)
    (price : ℚ) (files : List EstimatorFile) :
    (∀ f ∈ files, f.is_ingested = false →
      ∃ row ∈ (costEstimate cid cname model price files).files,
        row.corpus_file_id = f.id ∧ row.filename = f.filename ∧
        row.tokens = f.tokens ∧ row.cost = (f.tokens : ℚ) * price ∧
        row.is_ingested = false) ∧
    ((costEstimate cid cname model price files).file_count = files.length ∧
     (costEstimate cid cname model price files).ingested_count =
       (files.filter (fun f => f.is_ingested)).length ∧
     (costEstimate cid cname model price files).uningested_count =
       (files.filter (fun f => !f.is_ingested)).length ∧
     (costEstimate cid cname model price files).total_tokens =
       ((costEstimate cid cname model price files).files.map
         FileCost.tokens).sum ∧
     (costEstimate cid cname model price files).total_cost =
       ((costEstimate cid cname model price files).files.map
         FileCost.cost).sum) ∧
    (∀ (d : CostEstimateData) (row : FileCost),
      row ∈ unIngestedFiles (some d) ↔
        row ∈ d.files ∧ row.is_ingested = false) := by
  refine ⟨?_, ⟨rfl, rfl, rfl, rfl, rfl⟩, ?_⟩
  · intro f hf hing
    refine ⟨{ corpus_file_id := f.id, filename := f.filename,
              tokens := f.tokens, cost := (f.tokens : ℚ) * price,
              is_ingested := false }, ?_, rfl, rfl, rfl, rfl, rfl⟩
    simp only [costEstimate, List.mem_map, List.mem_filter]
    exact ⟨f, ⟨hf, by simp [hing]⟩, rfl⟩
  · intro d row
    simp [unIngestedFiles, List.mem_filter]

/-- Demo estimator input: one un-ingested 3000-token file and one already
ingested file. -/
def estimatorDemoFiles : List EstimatorFile :=
  [{ id := "file-1", filename := "refunds.txt", tokens := 3000,
     is_ingested := false },
   { id := "file-2", filename := "intro.txt", tokens := 500,
     is_ingested := true }]

/-- The un-ingested demo file. -/
def estimatorDemoFile : EstimatorFile :=
  { id := "file-1", filename := "refunds.txt", tokens := 3000,
    is_ingested := false }

/-- Demo price per token. -/
def demoPrice : ℚ := 2 / 100000000

/-- Witness for cost_estimate_rows_and_consumer_filter: the un-ingested
3000-token demo file yields a row with its token count and cost. -/
theorem cost_estimate_rows_and_consumer_filter_witness :
    estimatorDemoFile ∈ estimatorDemoFiles ∧
    estimatorDemoFile.is_ingested = false ∧
    (∃ row ∈ (costEstimate "corpus-1" "Docs" "text-embedding-3-small"
        demoPrice estimatorDemoFiles).files,
      row.corpus_file_id = estimatorDemoFile.id ∧
      row.filename = estimatorDemoFile.filename ∧
      row.tokens = estimatorDemoFile.tokens ∧
      row.cost = (estimatorDemoFile.tokens : ℚ) * demoPrice ∧
      row.is_ingested = false) :=
  ⟨by decide, rfl,
   (cost_estimate_rows_and_consumer_filter "corpus-1" "Docs"
      "text-embedding-3-small" demoPrice estimatorDemoFiles).1
     estimatorDemoFile (by decide) rfl⟩

/-- C5: the estimator's total_cost is the sum of the per-file costs in the
files list and total_tokens the sum of the per-file token counts; every
estimator row is un-ingested, so the dialog's table shows exactly the files
list, and the total the dialog prints under the table is the payload's
total_cost — hence the sum of exactly the displayed rows. -/
theorem cost_totals_additive (cid cname model : String) (price : ℚ)
    (files : List EstimatorFile) :
    (costEstimate cid cname model price files).total_cost =
      ((costEstimate cid cname model price files).files.map
        FileCost.cost).sum ∧
    (costEstimate cid cname model price files).total_tokens =
      ((costEstimate cid cname model price files).files.map
        FileCost.tokens).sum ∧
    unIngestedFiles (some (costEstimate cid cname model price files)) =
      (costEstimate cid cname model price files).files ∧
    (∀ (d : CostEstimateData) (rows : List FileCost) (totalShown : ℚ),
      costDialogBody d = CostDialogBody.table rows totalShown →
      rows = unIngestedFiles (some d) ∧ totalShown = d.total_cost) := by
  refine ⟨rfl, rfl, ?_, ?_⟩
  · simp only [unIngestedFiles]
    exact List.filter_eq_self.mpr (by
      intro row hrow
      simp [costEstimate_rows_not_ingested cid cname model price files
        row hrow])
  · intro d rows totalShown htable
    simp only [costDialogBody] at htable
    split at htable
    · exact (CostDialogBody.noConfusion htable)
    · cases htable
      exact ⟨rfl, rfl⟩

/-- A hand-written cost-estimate payload with a single un-ingested row. -/
def demoPayload : CostEstimateData :=
  { corpus_id := "corpus-1", corpus_name := "Docs",
    model := "text-embedding-3-small",
    files := [{ corpus_file_id := "file-1", filename := "refunds.txt",
                tokens := 3000, cost := (3 : ℚ) / 50000,
                is_ingested := false }],
    total_tokens := 3000, total_cost := (3 : ℚ) / 50000, file_count := 1,
    ingested_count := 0, uningested_count := 1 }

/-- Witness for cost_totals_additive: the additivity equations at concrete
estimator inputs, and the dialog-rendering implication at a concrete
payload whose body is the un-ingested table. -/
theorem cost_totals_additive_witness :
    ((costEstimate "corpus-1" "Docs" "text-embedding-3-small" demoPrice
        estimatorDemoFiles).total_cost =
      ((costEstimate "corpus-1" "Docs" "text-embedding-3-small" demoPrice
          estimatorDemoFiles).files.map FileCost.cost).sum ∧
     unIngestedFiles (some (costEstimate "corpus-1" "Docs"
        "text-embedding-3-small" demoPrice estimatorDemoFiles)) =
      (costEstimate "corpus-1" "Docs" "text-embedding-3-small" demoPrice
        estimatorDemoFiles).files) ∧
    (costDialogBody demoPayload =
      CostDialogBody.table demoPayload.files demoPayload.total_cost ∧
     demoPayload.files = unIngestedFiles (some demoPayload) ∧
     demoPayload.total_cost = demoPayload.total_cost) :=
  ⟨⟨(cost_totals_additive "corpus-1" "Docs" "text-embedding-3-small"
      demoPrice estimatorDemoFiles).1,
    (cost_totals_additive "corpus-1" "Docs" "text-embedding-3-small"
      demoPrice estimatorDemoFiles).2.2.1⟩,
   by
    have h := (cost_totals_additive "corpus-1" "Docs"
      "text-embedding-3-small" demoPrice estimatorDemoFiles).2.2.2
      demoPayload demoPayload.files demoPayload.total_cost rfl
    exact ⟨rfl, h.1, h.2⟩⟩

/-! ## Corpus form and validation (src/frontend/src/components/ListContainer.tsx
second unit: CreateCorpusDialog; src/frontend/src/components/Corpora.tsx) -/

/-- Corpus form data, from ListContainer.tsx second unit lines 67-78.  The
TypeScript type is Omit of Corpus over id, created_at, updated_at and
files, but the initialFormData literal (and every save payload) also
carries a similarity_threshold, which the Corpus interface does not
declare. -/
structure CorpusFormData where
  name : String
  description : String
  default_prompt : String
  qdrant_collection_name : String
  path : String
  embedding_model : String
  completion_model : String
  similarity_threshold : ℚ
deriving Repr, DecidableEq

/-- The fields present on the corpus form value (ListContainer.tsx second
unit lines 69-78), in the order of the initialFormData literal. -/
def corpusFormDataFields : List String :=
  ["name", "description", "default_prompt", "qdrant_collection_name",
   "path", "embedding_model", "completion_model", "similarity_threshold"]

/-- initialFormData, ListContainer.tsx second unit lines 69-78. -/
def initialFormData : CorpusFormData :=
  { name := "", description := "",
    default_prompt := "You are a helpful assistant. Answer the user's question based on the provided context.",
    qdrant_collection_name := "", path := "",
    embedding_model := "text-embedding-3-small",
    completion_model := "gpt-4o-mini",
    similarity_threshold := (7 : ℚ) / 10 }

/-- Modelled from the spec: the backend Corpus record (spec section 3),
which is not part of the source tree.  It carries a similarity threshold
(0.0 to 1.0) alongside identifier, name, optional description, default
system prompt, embedding and completion model identifiers, storage path and
the vector-collection handle. -/
structure BackendCorpus where
  id : String
  name : String
  description : Option String
  default_prompt : String
  embedding_model : String
  completion_model : String
  similarity_threshold : ℚ
  path : String
  qdrant_collection_name : String
deriving Repr, DecidableEq

/-- Modelled from the spec: well-formedness of a backend Corpus record — the
similarity threshold lies between 0.0 and 1.0. -/
def BackendCorpus.wellFormed (c : BackendCorpus) : Prop :=
  0 ≤ c.similarity_threshold ∧ c.similarity_threshold ≤ 1

/-- The initialData object Corpora.tsx builds for the edit dialog
(Corpora.tsx second unit lines 482-491): it reads
editingCorpus.similarity_threshold from the runtime corpus record even
though the Corpus interface does not declare that field. -/
def editingCorpusInitialData (c : BackendCorpus) : CorpusFormData :=
  { name := c.name, description := c.description.getD "",
    default_prompt := c.default_prompt,
    qdrant_collection_name := c.qdrant_collection_name,
    path := c.path, embedding_model := c.embedding_model,
    completion_model := c.completion_model,
    similarity_threshold := c.similarity_threshold }

/-- The similarity-threshold input handler (ListContainer.tsx second unit
line 321): parseFloat(value) with 0.7 substituted when the parse yields
NaN (modelled as none) or 0, since both are falsy. -/
def parseThresholdInput (parsed : Option ℚ) : ℚ :=
  match parsed with
  | none => (7 : ℚ) / 10
  | some v => if v = 0 then (7 : ℚ) / 10 else v

/-- C6: the backend Corpus record carries a similarity threshold in
[0.0, 1.0], yet the client Corpus interface omits similarity_threshold
while the edit dialog reads corpus.similarity_threshold from the runtime
record and the form defaults the field to 0.7. -/
theorem corpus_type_omits_similarity_threshold :
    "similarity_threshold" ∉ corpusTypeFields ∧
    "similarity_threshold" ∈ corpusFormDataFields ∧
    initialFormData.similarity_threshold = (7 : ℚ) / 10 ∧
    parseThresholdInput none = (7 : ℚ) / 10 ∧
    (∀ c : BackendCorpus,
      (editingCorpusInitialData c).similarity_threshold =
        c.similarity_threshold) ∧
    (∀ c : BackendCorpus, c.wellFormed →
      0 ≤ c.similarity_threshold ∧ c.similarity_threshold ≤ 1) := by
  refine ⟨?_, ?_, rfl, rfl, fun c => rfl, fun c h => h⟩
  · simp [corpusTypeFields]
  · simp [corpusFormDataFields]

/-- A well-formed backend corpus record used as witness input. -/
def backendCorpusDemo : BackendCorpus :=
  { id := "corpus-1", name := "Docs", description := none,
    default_prompt := "You are a helpful assistant.",
    embedding_model := "text-embedding-3-small",
    completion_model := "gpt-4o-mini",
    similarity_threshold := (3 : ℚ) / 4, path := "/data/docs",
    qdrant_collection_name := "docs" }

/-- Witness for corpus_type_omits_similarity_threshold at a concrete
backend record with threshold 0.75. -/
theorem corpus_type_omits_similarity_threshold_witness :
    ("similarity_threshold" ∉ corpusTypeFields ∧
     (editingCorpusInitialData backendCorpusDemo).similarity_threshold =
       backendCorpusDemo.similarity_threshold) ∧
    (backendCorpusDemo.wellFormed ∧
     0 ≤ backendCorpusDemo.similarity_threshold ∧
     backendCorpusDemo.similarity_threshold ≤ 1) :=
  ⟨⟨(corpus_type_omits_similarity_threshold).1,
    (corpus_type_omits_similarity_threshold).2.2.2.2.1 backendCorpusDemo⟩,
   by
    have hwf : backendCorpusDemo.wellFormed := by
      constructor <;> norm_num [backendCorpusDemo]
    exact ⟨hwf,
      (corpus_type_omits_similarity_threshold).2.2.2.2.2 backendCorpusDemo
        hwf⟩⟩

/-- The error entries validateForm collects (ListContainer.tsx second unit
lines 115-136): required-field messages for blank name, qdrant collection
name, path and default prompt.  No check involves similarity_threshold. -/
def validationErrors (f : CorpusFormData) : List (String × String) :=
  (if jsTrim f.name = "" then [("name", "Name is required")] else []) ++
  (if jsTrim f.qdrant_collection_name = "" then
    [("qdrant_collection_name", "Qdrant collection name is required")]
   else []) ++
  (if jsTrim f.path = "" then [("path", "Path is required")] else []) ++
  (if jsTrim f.default_prompt = "" then
    [("default_prompt", "Default prompt is required")]
   else [])

/-- validateForm returns whether no error entry was collected
(ListContainer.tsx second unit line 135). -/
def validateForm (f : CorpusFormData) : Bool :=
  (validationErrors f).isEmpty

/-- The save request handleSave may issue: POST /corpora in create mode,
PATCH /corpora/id in edit mode (ListContainer.tsx second unit lines
143-149). -/
inductive CorpusSaveRequest where
  | createCorpus (formData : CorpusFormData)
  | updateCorpus (corpusId : String) (formData : CorpusFormData)
deriving Repr, DecidableEq

/-- Dialog mode: create, or edit of an existing corpus id. -/
inductive DialogMode where
  | createMode
  | editMode (corpusId : String)
deriving Repr, DecidableEq

/-- CreateCorpusDialog.handleSave (ListContainer.tsx second unit lines
138-161): returns the HTTP request it issues, or none when validateForm
fails — in which case no fetch happens at all. -/
def handleSave (mode : DialogMode) (f : CorpusFormData) :
    Option CorpusSaveRequest :=
  if validateForm f then
    some (match mode with
          | DialogMode.createMode => CorpusSaveRequest.createCorpus f
          | DialogMode.editMode corpusId =>
              CorpusSaveRequest.updateCorpus corpusId f)
  else none

/-- A form whose required fields are all filled but whose similarity
threshold is far outside [0.0, 1.0]. -/
def badThresholdForm : CorpusFormData :=
  { name := "Docs", description := "",
    default_prompt := "You are a helpful assistant.",
    qdrant_collection_name := "docs", path := "/data/docs",
    embedding_model := "text-embedding-3-small",
    completion_model := "gpt-4o-mini", similarity_threshold := 5 }

/-- Counterexample to C7 as stated: a form with similarity threshold 5.0
(far out of range) passes validateForm, and handleSave issues the create
request anyway — an out-of-range similarity threshold is not rejected
before the external call. -/
theorem out_of_range_threshold_not_rejected_cex :
    1 < badThresholdForm.similarity_threshold ∧
    validateForm badThresholdForm = true ∧
    handleSave DialogMode.createMode badThresholdForm =
      some (CorpusSaveRequest.createCorpus badThresholdForm) :=
  ⟨by norm_num [badThresholdForm], rfl, rfl⟩

/-- C7 (amended): a corpus create or update with a missing required field
(blank name, qdrant collection name, path or default prompt) is rejected by
validateForm before any request is issued, and handleSave issues no HTTP
request unless validateForm succeeds; validateForm never inspects the
similarity threshold, so an out-of-range threshold is not rejected
client-side. -/
theorem validation_gates_save_requests (mode : DialogMode)
    (f : CorpusFormData) :
    ((jsTrim f.name = "" ∨ jsTrim f.qdrant_collection_name = "" ∨
      jsTrim f.path = "" ∨ jsTrim f.default_prompt = "") →
      handleSave mode f = none) ∧
    (∀ r, handleSave mode f = some r → validateForm f = true) ∧
    (∀ q : ℚ, validateForm { f with similarity_threshold := q } =
      validateForm f) := by
  refine ⟨?_, ?_, fun q => rfl⟩
  · intro hmissing
    have hval : validateForm f = false := by
      rcases hmissing with h | h | h | h <;>
        simp [validateForm, validationErrors, h]
    simp [handleSave, hval]
  · intro r hr
    by_cases hval : validateForm f = true
    · exact hval
    · simp [handleSave, hval] at hr

/-- A form with a blank name and every other required field filled. -/
def blankNameForm : CorpusFormData :=
  { name := "", description := "",
    default_prompt := "You are a helpful assistant.",
    qdrant_collection_name := "docs", path := "/data/docs",
    embedding_model := "text-embedding-3-small",
    completion_model := "gpt-4o-mini",
    similarity_threshold := (7 : ℚ) / 10 }

/-- Witness for validation_gates_save_requests: a blank name yields no
request. -/
theorem validation_gates_save_requests_witness :
    (jsTrim blankNameForm.name = "" ∨
     jsTrim blankNameForm.qdrant_collection_name = "" ∨
     jsTrim blankNameForm.path = "" ∨
     jsTrim blankNameForm.default_prompt = "") ∧
    handleSave DialogMode.createMode blankNameForm = none :=
  ⟨Or.inl (by decide),
   (validation_gates_save_requests DialogMode.createMode blankNameForm).1
     (Or.inl (by decide))⟩

/-! ## Retrieval, the turn procedure, and part rendering
(spec sections 4.4 and 4.5; src/frontend/src/components/ConversationsList.tsx
second unit: ConversationView) -/

/-- Modelled from the spec: a vector-store search result — a chunk text, its
source file reference, and its similarity score (spec section 4.4).  The
backend Retrieval Engine is not part of the source tree. -/
structure ScoredChunk where
  text : String
  source_file : String
  score : ℚ
deriving Repr, DecidableEq

/-- Modelled from the spec: the thresholding step of the Retrieval Engine
(spec section 4.4), which is not part of the source tree — drop every
result whose similarity score is below the corpus's configured
threshold. -/
def retrieveAboveThreshold (threshold : ℚ) (results : List ScoredChunk) :
    List ScoredChunk :=
  results.filter (fun c => threshold ≤ c.score)

/-- Outcome of the external completion-provider call. -/
inductive CompletionResult where
  | ok (text : String)
  | failed (message : String)
deriving Repr, DecidableEq

/-- Modelled from the spec: the shared turn procedure of the Conversation
Orchestrator (spec section 4.5), which is not part of the source tree.
Retrieval output is thresholded; on completion success a ConversationPart
records the query, response, retrieved chunk texts, distinct source files,
chunk count and the models used; on completion failure the turn fails as a
whole and no part is produced. -/
def runTurn (corpus : BackendCorpus) (query : String)
    (results : List ScoredChunk) (completion : CompletionResult)
    (partId convId createdAt : String) : Except String ConversationPart :=
  let chunks := retrieveAboveThreshold corpus.similarity_threshold results
  match completion with
  | CompletionResult.failed msg => Except.error msg
  | CompletionResult.ok text =>
      Except.ok
        { id := partId, conversation_id := convId, query := query,
          context_chunks := chunks.map ScoredChunk.text, response := text,
          sources := some ((chunks.map ScoredChunk.source_file).dedup),
          embedding_model_used := corpus.embedding_model,
          completion_model_used := corpus.completion_model,
          chunks_retrieved := chunks.length, created_at := createdAt }

/-- What ConversationView renders for one part (ConversationsList.tsx
second unit lines 278-319): the query bubble, the response text, and the
context-chunks affordance shown only when context_chunks is non-empty. -/
structure RenderedPart where
  queryShown : String
  responseShown : String
  hasContextAffordance : Bool
deriving Repr, DecidableEq

/-- Rendering of a single conversation part. -/
def renderPart (p : ConversationPart) : RenderedPart :=
  { queryShown := p.query, responseShown := p.response,
    hasContextAffordance := !p.context_chunks.isEmpty }

/-- C8: when every retrieval result scores below the corpus threshold, the
turn still succeeds with a part whose context_chunks is empty and
chunks_retrieved is 0 while the response is present, and that part renders
with its response but without the context-chunks affordance; a failed
completion, by contrast, yields no part at all. -/
theorem empty_retrieval_turn_succeeds (corpus : BackendCorpus)
    (query text partId convId createdAt : String)
    (results : List ScoredChunk)
    (hbelow : ∀ c ∈ results, c.score < corpus.similarity_threshold) :
    (∃ p, runTurn corpus query results (CompletionResult.ok text) partId
        convId createdAt = Except.ok p ∧
      p.context_chunks = [] ∧ p.chunks_retrieved = 0 ∧ p.response = text ∧
      (renderPart p).responseShown = text ∧
      (renderPart p).hasContextAffordance = false) ∧
    (∀ msg, runTurn corpus query results (CompletionResult.failed msg)
      partId convId createdAt = Except.error msg) := by
  have hfilter :
      retrieveAboveThreshold corpus.similarity_threshold results = [] := by
    rw [retrieveAboveThreshold, List.filter_eq_nil_iff]
    intro c hc
    simp [not_le.mpr (hbelow c hc)]
  refine ⟨⟨{ id := partId, conversation_id := convId, query := query,
             context_chunks := [], response := text, sources := some [],
             embedding_model_used := corpus.embedding_model,
             completion_model_used := corpus.completion_model,
             chunks_retrieved := 0, created_at := createdAt },
           ?_, rfl, rfl, rfl, rfl, rfl⟩, fun msg => rfl⟩
  simp [runTurn, hfilter]

/-- A concrete retrieval result scoring below the 0.75 demo threshold. -/
def lowScoreChunk : ScoredChunk :=
  { text := "refund policy excerpt", source_file := "file-1",
    score := (1 : ℚ) / 2 }

/-- Witness for empty_retrieval_turn_succeeds: against the demo corpus with
threshold 0.75, one result scoring 0.5 is dropped and the turn still
succeeds with an empty context and a present response. -/
theorem empty_retrieval_turn_succeeds_witness :
    (∀ c ∈ [lowScoreChunk], c.score <
      backendCorpusDemo.similarity_threshold) ∧
    ((∃ p, runTurn backendCorpusDemo "What is the refund policy?"
        [lowScoreChunk] (CompletionResult.ok "No relevant context found.")
        "part-1" "conv-1" "2025-01-01T00:10:00Z" = Except.ok p ∧
      p.context_chunks = [] ∧ p.chunks_retrieved = 0 ∧
      p.response = "No relevant context found." ∧
      (renderPart p).responseShown = "No relevant context found." ∧
      (renderPart p).hasContextAffordance = false) ∧
    (∀ msg, runTurn backendCorpusDemo "What is the refund policy?"
      [lowScoreChunk] (CompletionResult.failed msg) "part-1" "conv-1"
      "2025-01-01T00:10:00Z" = Except.error msg)) := by
  have hbelow : ∀ c ∈ [lowScoreChunk],
      c.score < backendCorpusDemo.similarity_threshold := by
    intro c hc
    rw [List.mem_singleton] at hc
    subst hc
    norm_num [lowScoreChunk, backendCorpusDemo]
  exact ⟨hbelow,
    empty_retrieval_turn_succeeds backendCorpusDemo
      "What is the refund policy?" "No relevant context found." "part-1"
      "conv-1" "2025-01-01T00:10:00Z" [lowScoreChunk] hbelow⟩

/-! ## Client corpus/conversation state
(src/frontend/src/components/Corpora.tsx second unit,
src/frontend/src/components/ConversationsList.tsx first unit, and the
ConversationInput success path)

The jotai atoms shared by these components form one client state.  Each
handler (or the completion of one of its awaited fetches) is an event; the
conversations list is only replaced when the fetch triggered by a corpus
change completes, so between a corpus switch and that completion the list
still holds the previous corpus's conversations. -/

/-- Client state shared through the corpora/conversations atoms. -/
structure ClientState where
  activeCorpus : Option Corpus
  conversations : List Conversation
  activeConversation : Option Conversation
  conversationParts : List ConversationPart
  isNewConversationMode : Bool
deriving Repr, DecidableEq

/-- The JS comparison activeCorpus?.id === corpusId (undefined compares
unequal to every id). -/
def corpusIdMatches (activeCorpus : Option Corpus) (corpusId : String) :
    Bool :=
  match activeCorpus with
  | none => false
  | some c => c.id == corpusId

/-- The JS comparison activeConversation?.id === convId. -/
def convIdMatches (activeConversation : Option Conversation)
    (convId : String) : Bool :=
  match activeConversation with
  | none => false
  | some c => c.id == convId

/-- Sort by created_at descending (ConversationsList.fetchConversations
lines 36-39; created_at is an ISO timestamp, so string order models Date
order). -/
def sortByCreatedAtDesc (data : List Conversation) : List Conversation :=
  List.insertionSort (fun a b => b.created_at ≤ a.created_at) data

/-- The client-state events: each is one handler from the sources, or the
completion of the fetch that handler awaited. -/
inductive ClientEvent where
  | selectCorpus (corpus : Corpus)
  | confirmDeleteCorpus (corpus : Corpus) (success : Bool)
  | fetchConversationsResult (data : List Conversation)
  | selectConversation (conv : Conversation)
  | newConversationClick
  | deleteConversation (conv : Conversation) (success : Bool)
  | turnCompleted (conv : Conversation)
  | turnFailed (message : String)
deriving Repr, DecidableEq

/-- One step of the client state machine.
selectCorpus: Corpora.handleCorpusSelect (second unit lines 198-206) —
clears the active conversation and parts only when the corpus id actually
changes, and does not touch the conversations list.
confirmDeleteCorpus: Corpora.handleConfirmDelete (lines 331-364) — on
success, clears the active corpus, conversation and parts when the deleted
corpus was the active one.
fetchConversationsResult: ConversationsList.fetchConversations (lines
25-53) — with no active corpus the list and active conversation are
cleared; otherwise the fetched data is sorted by created_at descending,
stored, and the active conversation is refreshed from it when found by id.
selectConversation: handleConversationSelect (lines 67-70).
newConversationClick: clearActiveConversation (lines 20-23).
deleteConversation: handleDeleteConversation (lines 72-100) — on success
clears the active conversation when it was the deleted one.
turnCompleted / turnFailed: the ConversationInput submit outcome. -/
def clientStep (s : ClientState) (e : ClientEvent) : ClientState :=
  match e with
  | ClientEvent.selectCorpus corpus =>
      if corpusIdMatches s.activeCorpus corpus.id then s
      else { s with activeCorpus := some corpus,
                    activeConversation := none,
                    conversationParts := [],
                    isNewConversationMode := true }
  | ClientEvent.confirmDeleteCorpus corpus success =>
      if success then
        if corpusIdMatches s.activeCorpus corpus.id then
          { s with activeCorpus := none, activeConversation := none,
                   conversationParts := [], isNewConversationMode := true }
        else s
      else s
  | ClientEvent.fetchConversationsResult data =>
      match s.activeCorpus with
      | none => { s with conversations := [], activeConversation := none,
                         conversationParts := [] }
      | some _ =>
        let sorted := sortByCreatedAtDesc data
        match s.activeConversation with
        | none => { s with conversations := sorted }
        | some active =>
          match sorted.find? (fun conv => conv.id == active.id) with
          | some updated =>
              { s with conversations := sorted,
                       activeConversation := some updated,
                       conversationParts := updated.parts }
          | none => { s with conversations := sorted }
  | ClientEvent.selectConversation conv =>
      { s with activeConversation := some conv,
               conversationParts := conv.parts }
  | ClientEvent.newConversationClick =>
      { s with activeConversation := none, conversationParts := [] }
  | ClientEvent.deleteConversation conv success =>
      if success then
        if convIdMatches s.activeConversation conv.id then
          { s with activeConversation := none, conversationParts := [] }
        else s
      else s
  | ClientEvent.turnCompleted conv =>
      { s with activeConversation := some conv,
               conversationParts := conv.parts }
  | ClientEvent.turnFailed _ => s

/-- The invariant of claim C9: the active conversation, when non-null,
belongs to the active corpus. -/
def activeConvBelongs (s : ClientState) : Bool :=
  match s.activeConversation, s.activeCorpus with
  | none, _ => true
  | some _, none => false
  | some conv, some corpus => conv.corpus_id == corpus.id

/-- The rendered conversations list is fresh: with no corpus selected it is
empty, and with one selected every listed conversation belongs to it. -/
def listFresh (s : ClientState) : Bool :=
  match s.activeCorpus with
  | none => s.conversations.isEmpty
  | some corpus =>
      s.conversations.all (fun conv => conv.corpus_id == corpus.id)

/-- Which events the environment can actually deliver in a state: the
conversations endpoint returns conversations of the requested corpus, only
listed conversations can be clicked, and a completed turn returns a
conversation of the corpus the request was posted to. -/
def EventOK (s : ClientState) : ClientEvent → Prop
  | ClientEvent.fetchConversationsResult data =>
      ∀ corpus, s.activeCorpus = some corpus →
        ∀ conv ∈ data, conv.corpus_id = corpus.id
  | ClientEvent.selectConversation conv => conv ∈ s.conversations
  | ClientEvent.turnCompleted conv =>
      ∃ corpus, s.activeCorpus = some corpus ∧ conv.corpus_id = corpus.id
  | _ => True

/-- Corpus A for the stale-list scenario. -/
def cexCorpusA : Corpus :=
  { id := "corpus-a", name := "A", description := none,
    default_prompt := "p", qdrant_collection_name := "a", path := "/a",
    embedding_model := "text-embedding-3-small",
    completion_model := "gpt-4o-mini",
    created_at := "2025-01-01T00:00:00Z",
    updated_at := "2025-01-01T00:00:00Z", files := [] }

/-- Corpus B for the stale-list scenario. -/
def cexCorpusB : Corpus :=
  { id := "corpus-b", name := "B", description := none,
    default_prompt := "p", qdrant_collection_name := "b", path := "/b",
    embedding_model := "text-embedding-3-small",
    completion_model := "gpt-4o-mini",
    created_at := "2025-01-01T00:00:00Z",
    updated_at := "2025-01-01T00:00:00Z", files := [] }

/-- A conversation belonging to corpus A. -/
def cexConvA : Conversation :=
  { id := "conv-a1", corpus_id := "corpus-a", title := some "old",
    created_at := "2025-01-01T00:00:00Z", parts := [] }

/-- State with corpus A active and its conversation listed. -/
def cexState0 : ClientState :=
  { activeCorpus := some cexCorpusA, conversations := [cexConvA],
    activeConversation := none, conversationParts := [],
    isNewConversationMode := false }

/-- State just after selecting corpus B, before the conversations refetch
for B has completed: the list still shows corpus A's conversation. -/
def cexState1 : ClientState :=
  { activeCorpus := some cexCorpusB, conversations := [cexConvA],
    activeConversation := none, conversationParts := [],
    isNewConversationMode := true }

/-- Counterexample to C9 as stated: starting from a state satisfying the
invariant (corpus A active, its conversation listed, nothing selected),
selecting corpus B and then clicking the still-listed conversation of
corpus A — both steps are handlers of the sources, and the click targets a
rendered list entry — leaves a conversation of corpus A active under
corpus B, so the invariant is not kept by every operation. -/
theorem stale_conversation_select_violates_invariant_cex :
    activeConvBelongs cexState0 = true ∧
    listFresh cexState0 = true ∧
    clientStep cexState0 (ClientEvent.selectCorpus cexCorpusB) =
      cexState1 ∧
    EventOK cexState1 (ClientEvent.selectConversation cexConvA) ∧
    activeConvBelongs
      (clientStep cexState1 (ClientEvent.selectConversation cexConvA)) =
      false := by
  refine ⟨rfl, by decide, by decide, ?_, by decide⟩
  show cexConvA ∈ cexState1.conversations
  simp [cexState1]

/-- C9 (amended): every operation preserves "the active conversation, when
non-null, belongs to the active corpus", provided the rendered
conversations list is fresh for the active corpus when a conversation is
clicked — the guarantee the code restores only once the refetch after a
corpus change completes; moreover selecting a different corpus clears the
active conversation and its parts, deleting the active corpus clears them
together with the active corpus, and a conversations refresh with no
corpus selected empties the list and clears the active conversation. -/
theorem client_conversation_corpus_invariant :
    (∀ (s : ClientState) (e : ClientEvent),
      activeConvBelongs s = true → listFresh s = true → EventOK s e →
      activeConvBelongs (clientStep s e) = true) ∧
    (∀ (s : ClientState) (corpus : Corpus),
      corpusIdMatches s.activeCorpus corpus.id = false →
      (clientStep s (ClientEvent.selectCorpus corpus)).activeCorpus =
          some corpus ∧
      (clientStep s (ClientEvent.selectCorpus corpus)).activeConversation =
          none ∧
      (clientStep s (ClientEvent.selectCorpus corpus)).conversationParts =
          []) ∧
    (∀ (s : ClientState) (corpus : Corpus),
      corpusIdMatches s.activeCorpus corpus.id = true →
      (clientStep s (ClientEvent.confirmDeleteCorpus corpus true)).activeCorpus = none ∧
      (clientStep s (ClientEvent.confirmDeleteCorpus corpus true)).activeConversation = none ∧
      (clientStep s (ClientEvent.confirmDeleteCorpus corpus true)).conversationParts = []) ∧
    (∀ (s : ClientState) (data : List Conversation),
      s.activeCorpus = none →
      (clientStep s (ClientEvent.fetchConversationsResult data)).conversations = [] ∧
      (clientStep s (ClientEvent.fetchConversationsResult data)).activeConversation = none ∧
      (clientStep s (ClientEvent.fetchConversationsResult data)).conversationParts = []) := by
  refine ⟨?_, ?_, ?_, ?_⟩
  · intro s e hinv hfresh hok
    cases e with
    | selectCorpus corpus =>
        simp only [clientStep]
        split
        · exact hinv
        · rfl
    | confirmDeleteCorpus corpus success =>
        simp only [clientStep]
        split
        · split
          · rfl
          · exact hinv
        · exact hinv
    | fetchConversationsResult data =>
        simp only [clientStep]
        cases hc : s.activeCorpus with
        | none => rfl
        | some corpus =>
          cases ha : s.activeConversation with
          | none => simp [activeConvBelongs, hc]
          | some active =>
            cases hfind : (sortByCreatedAtDesc data).find?
                (fun conv => conv.id == active.id) with
            | some updated =>
                have hmem : updated ∈ sortByCreatedAtDesc data :=
                  List.mem_of_find?_eq_some hfind
                have hmemdata : updated ∈ data := by
                  have hperm := List.perm_insertionSort
                    (fun a b => b.created_at ≤ a.created_at) data
                  exact hperm.mem_iff.mp hmem
                have hbelongs : updated.corpus_id = corpus.id :=
                  hok corpus hc updated hmemdata
                simp [activeConvBelongs, hc, hbelongs, hfind]
            | none =>
                simp only [activeConvBelongs, hc, ha] at hinv
                simp [activeConvBelongs, hfind, hinv]
    | selectConversation conv =>
        cases hc : s.activeCorpus with
        | none =>
          simp only [listFresh, hc] at hfresh
          rw [List.isEmpty_iff] at hfresh
          rw [show EventOK s (ClientEvent.selectConversation conv) =
            (conv ∈ s.conversations) from rfl, hfresh] at hok
          exact absurd hok (List.not_mem_nil conv)
        | some corpus =>
          simp only [listFresh, hc, List.all_eq_true] at hfresh
          have hbelongs := hfresh conv hok
          simp [clientStep, activeConvBelongs, hc, hbelongs]
    | newConversationClick => rfl
    | deleteConversation conv success =>
        simp only [clientStep]
        split
        · split
          · rfl
          · exact hinv
        · exact hinv
    | turnCompleted conv =>
        obtain ⟨corpus, hc, hbelongs⟩ := hok
        simp [clientStep, activeConvBelongs, hc, hbelongs]
    | turnFailed msg => exact hinv
  · intro s corpus hmatch
    simp [clientStep, hmatch]
  · intro s corpus hmatch
    simp [clientStep, hmatch]
  · intro s data hc
    simp [clientStep, hc]

/-- A state with no corpus selected but a stale conversation list. -/
def cexStateNoCorpus : ClientState :=
  { activeCorpus := none, conversations := [cexConvA],
    activeConversation := none, conversationParts := [],
    isNewConversationMode := true }

/-- Witness for client_conversation_corpus_invariant: preservation across a
concrete conversation click on a fresh list, and the three clearing
behaviours at concrete states. -/
theorem client_conversation_corpus_invariant_witness :
    (activeConvBelongs cexState0 = true ∧ listFresh cexState0 = true ∧
     EventOK cexState0 (ClientEvent.selectConversation cexConvA) ∧
     activeConvBelongs
       (clientStep cexState0 (ClientEvent.selectConversation cexConvA)) =
       true) ∧
    (corpusIdMatches cexState0.activeCorpus cexCorpusB.id = false ∧
     (clientStep cexState0 (ClientEvent.selectCorpus cexCorpusB)).activeConversation = none) ∧
    (corpusIdMatches cexState0.activeCorpus cexCorpusA.id = true ∧
     (clientStep cexState0 (ClientEvent.confirmDeleteCorpus cexCorpusA true)).activeCorpus = none) ∧
    (cexStateNoCorpus.activeCorpus = none ∧
     (clientStep cexStateNoCorpus
       (ClientEvent.fetchConversationsResult [cexConvA])).conversations = []) := by
  have hok : EventOK cexState0 (ClientEvent.selectConversation cexConvA) := by
    show cexConvA ∈ cexState0.conversations
    simp [cexState0]
  refine ⟨⟨rfl, by decide, hok, ?_⟩, ⟨by decide, ?_⟩, ⟨by decide, ?_⟩,
    ⟨rfl, ?_⟩⟩
  · exact client_conversation_corpus_invariant.1 cexState0
      (ClientEvent.selectConversation cexConvA) rfl (by decide) hok
  · exact (client_conversation_corpus_invariant.2.1 cexState0 cexCorpusB
      (by decide)).2.1
  · exact (client_conversation_corpus_invariant.2.2.1 cexState0 cexCorpusA
      (by decide)).1
  · exact (client_conversation_corpus_invariant.2.2.2 cexStateNoCorpus
      [cexConvA] rfl).1

end RAGonQuest
